import Mathlib

/-
  Verification of the BalanceChain core (biovaultsoftware/POSnos).

  Shallow embedding of src/constants.js, src/crypto.js (canonicalize),
  src/segment.js, src/validation.js, src/state.js, src/caps.js,
  src/integrity.js, src/index.js and the TVM capsule module.

  Host primitives that are not part of the repository (SHA-256, ECDSA
  sign/verify, Date.now, crypto.getRandomValues) are passed to the embedded
  functions as explicit parameters.  JavaScript numbers that the core uses
  as integers (sequence numbers, millisecond timestamps, counters, scores)
  are modelled as Int.  JavaScript objects reachable from segments are
  modelled by typed records with Option fields (none = the key is absent /
  undefined).
-/

namespace POSnos

/-! ### Protocol constants (src/constants.js) -/

def PROTOCOL_VERSION : Int := 2

def GENESIS_HASH : String := "GENESIS"

def INITIAL_UNLOCKED_SEGMENTS : Int := 1200

def DAILY_CAP : Int := 3600

def MONTHLY_CAP : Int := 36000

def YEARLY_CAP : Int := 120000

def MIN_BLOCK_INTERVAL_MS : Int := 1000

def UTC_TOLERANCE_MS : Int := 720000

def MIN_RICH_SCORE : Int := 70

def MIN_BUSINESS_SCORE : Int := 70

def MIN_ECF_THRESHOLD : Rat := 1 / 10

def SESSION_MESSAGE_LIMIT : Int := 12

/-- STA_TYPES from src/constants.js, as the list of its values
(Object.values order). -/
def STA_TYPES_values : List String :=
  ["chat.user", "ai.advice", "biz.decision", "biz.outcome",
   "chat.append", "capsule.mint", "tvm.transfer"]

/-! ### Canonical JSON (src/crypto.js canonicalize)

JavaScript values fed to `canonicalize` are modelled by `JValue`.
`JSON.stringify` of a primitive is modelled by the string/number/bool
cases below; string escaping follows the JSON.stringify rules for the
characters the core can produce. -/

mutual

inductive JValue where
  | null : JValue
  | undefined : JValue
  | bool (b : Bool) : JValue
  | num (n : Int) : JValue
  | str (s : String) : JValue
  | arr (xs : JArr) : JValue
  | obj (fields : JFields) : JValue

inductive JArr where
  | nil : JArr
  | cons (hd : JValue) (tl : JArr) : JArr

inductive JFields where
  | nil : JFields
  | cons (key : String) (val : JValue) (tl : JFields) : JFields

end

/-- Build an object field list. -/
def jfields : List (String × JValue) → JFields
  | [] => JFields.nil
  | kv :: rest => JFields.cons kv.1 kv.2 (jfields rest)

/-- Build an array. -/
def jarr : List JValue → JArr
  | [] => JArr.nil
  | x :: rest => JArr.cons x (jarr rest)

/-- A JavaScript object literal. -/
def jobj (fs : List (String × JValue)) : JValue := JValue.obj (jfields fs)

/-- One hexadecimal digit (lowercase), for \u escapes. -/
def hexDigit (n : Nat) : Char :=
  if n < 10 then Char.ofNat (48 + n) else Char.ofNat (97 + (n - 10))

/-- Four-digit lowercase hex, for JSON \u escapes of control characters. -/
def hex4 (n : Nat) : String :=
  String.mk [hexDigit (n / 4096 % 16), hexDigit (n / 256 % 16),
             hexDigit (n / 16 % 16), hexDigit (n % 16)]

/-- JSON.stringify escaping of a single character inside a string literal. -/
def jsonEscapeChar (c : Char) : String :=
  if c = '"' then "\\\""
  else if c = '\\' then "\\\\"
  else if c = '\n' then "\\n"
  else if c = '\r' then "\\r"
  else if c = '\t' then "\\t"
  else if c = Char.ofNat 8 then "\\b"
  else if c = Char.ofNat 12 then "\\f"
  else if c.toNat < 32 then "\\u" ++ hex4 c.toNat
  else String.singleton c

/-- JSON.stringify of a string value. -/
def jsonQuote (s : String) : String :=
  "\"" ++ String.join (s.data.map jsonEscapeChar) ++ "\""

/-- Lexicographic order on character lists by code unit, the comparison
Array.prototype.sort applies to string keys. -/
def charListLe : List Char → List Char → Bool
  | [], _ => true
  | _ :: _, [] => false
  | a :: as, b :: bs =>
      if a.toNat < b.toNat then true
      else if b.toNat < a.toNat then false
      else charListLe as bs

/-- Lexicographic string order by code unit. -/
def strLe (a b : String) : Bool := charListLe a.data b.data

/-- Insert a rendered key/value pair into a key-sorted list
(Object.keys(obj).sort() uses lexicographic string order). -/
def insertPair (kv : String × String) : List (String × String) → List (String × String)
  | [] => [kv]
  | p :: rest => if strLe p.1 kv.1 then p :: insertPair kv rest else kv :: p :: rest

/-- Sort rendered pairs by key (lexicographic). -/
def sortPairs : List (String × String) → List (String × String)
  | [] => []
  | kv :: rest => insertPair kv (sortPairs rest)

mutual

/-- canonicalize from src/crypto.js: deterministic JSON with object keys
sorted lexicographically at every depth, arrays in order, and the
"null" / "undefined" sentinels. -/
def canonicalize (j : JValue) : String :=
  match j with
  | .null => "null"
  | .undefined => "undefined"
  | .bool b => if b then "true" else "false"
  | .num n => toString n
  | .str s => jsonQuote s
  | .arr xs => "[" ++ String.intercalate "," (canonList xs) ++ "]"
  | .obj fs =>
      "\x7b" ++
        String.intercalate ","
          ((sortPairs (canonPairs fs)).map (fun kv => jsonQuote kv.1 ++ ":" ++ kv.2)) ++
      "\x7d"
termination_by structural j

/-- canonicalize, mapped over an array. -/
def canonList (l : JArr) : List String :=
  match l with
  | .nil => []
  | .cons x xs => canonicalize x :: canonList xs
termination_by structural l

/-- canonicalize, mapped over an object's values (keys are sorted afterwards;
object keys are never duplicated). -/
def canonPairs (fs : JFields) : List (String × String) :=
  match fs with
  | .nil => []
  | .cons k v rest => (k, canonicalize v) :: canonPairs rest
termination_by structural fs

end

/-! ### Backup restore eligibility (src/integrity.js) -/

structure ChainState where
  chainLen : Int
  chainHead : String
deriving DecidableEq

structure RestoreResult where
  canRestore : Bool
  requiresSync : Bool
  reason : String
deriving DecidableEq

/-- verifyBackupRestoreEligibility from src/integrity.js. -/
def verifyBackupRestoreEligibility (backupData : ChainState)
    (currentState : Option ChainState) : RestoreResult :=
  match currentState with
  | none =>
      { canRestore := true, requiresSync := false
        reason := "Fresh install - no sync required" }
  | some cur =>
      if cur.chainLen = 0 then
        { canRestore := true, requiresSync := false
          reason := "Fresh install - no sync required" }
      else if backupData.chainLen < cur.chainLen then
        { canRestore := false, requiresSync := true
          reason := "Backup is older than current state. Sync required to merge." }
      else if backupData.chainHead ≠ cur.chainHead then
        if backupData.chainLen > cur.chainLen then
          { canRestore := false, requiresSync := true
            reason := "Backup has diverged. Online sync required to resolve fork." }
        else
          { canRestore := false, requiresSync := true
            reason := "Chain heads do not match. Sync required." }
      else
        { canRestore := true, requiresSync := false
          reason := "Backup matches current state" }

/-- Modelled from the spec's five-case table for backup-restore
eligibility ("no restore without sync"), literally as the claim states it:
the pair is (canRestore, requiresSync). -/
def specRestoreTable (backup cur : ChainState) : Bool × Bool :=
  if cur.chainLen = 0 then (true, false)
  else if backup.chainLen < cur.chainLen then (false, true)
  else if backup.chainHead ≠ cur.chainHead ∧ backup.chainLen > cur.chainLen then (false, true)
  else if backup.chainHead ≠ cur.chainHead then (false, true)
  else (true, false)

/-! ### Segments (src/segment.js)

A JavaScript value that may be absent (`undefined`) is an Option; `none`
means the key is not on the object.  A liveness proof value can be any
JavaScript value; the validator only distinguishes non-objects from
objects carrying a numeric `timestamp`. -/

inductive LivenessProof where
  | nonObject : LivenessProof
  | objProof (timestamp : Option Int) : LivenessProof
deriving DecidableEq

structure Scores where
  rich : Option Int
  business : Option Int
deriving DecidableEq

/-- Validator- and projection-observed payload fields.  Other payload
content is opaque to the chain core. -/
structure Payload where
  chatId : Option String
  selected_character : Option String
  text : Option String
  decision : Option String
  outcome : Option String
  scores : Option Scores
  bubbles : Option String
  livenessProof : Option LivenessProof
deriving DecidableEq

structure SegmentAuthor where
  hid : Option String
  pubJwk : Option String
  livenessProof : Option LivenessProof
deriving DecidableEq

structure Segment where
  v : Int
  seq : Int
  timestamp : Int
  nonce : String
  type : String
  payload : Payload
  prev_hash : String
  unlocker_ref : Option String
  unlocked_ref : Option String
  previous_owner : Option String
  current_owner : String
  author : SegmentAuthor
  signature : Option String
deriving DecidableEq

/-- JavaScript `x || y` on strings: the empty string is falsy. -/
def truthyStr : Option String → Option String
  | none => none
  | some s => if s = "" then none else some s

/-- String.prototype.startsWith. -/
def strStartsWith (s pre : String) : Bool :=
  pre.data.isPrefixOf s.data

/-- The part of a reference string before the first colon
(ref.split(':')[0]). -/
def refHead (s : String) : String :=
  String.mk (s.data.takeWhile (fun c => c ≠ ':'))

/-- parseInt(_, 10) on the model's well-formed "{seq}:{nonce}" reference
heads: the value of the leading decimal-digit run, none (NaN) when there
is no leading digit. -/
def parseIntPrefix (s : String) : Option Int :=
  match s.data.takeWhile (fun c => 48 ≤ c.toNat ∧ c.toNat ≤ 57) with
  | [] => none
  | ds => some ((ds.foldl (fun acc c => acc * 10 + (c.toNat - 48)) 0 : Nat) : Int)

/-- JValue encoding of an optional numeric field (absent keys are kept as
`undefined` only where the source stores an explicit value; here absence
means the key is omitted by the encoder that uses the list). -/
def jOptNum : Option Int → JValue
  | none => JValue.undefined
  | some n => JValue.num n

def jNullableStr : Option String → JValue
  | none => JValue.null
  | some s => JValue.str s

def livenessToJ : LivenessProof → JValue
  | .nonObject => JValue.str "liveness"
  | .objProof ts => jobj (match ts with
      | none => []
      | some t => [("timestamp", JValue.num t)])

/-- JValue encoding of the modelled payload; absent Option fields are
absent keys. -/
def payloadToJ (p : Payload) : JValue :=
  jobj
    ((match p.chatId with | none => [] | some s => [("chatId", JValue.str s)]) ++
     (match p.selected_character with
        | none => [] | some s => [("selected_character", JValue.str s)]) ++
     (match p.text with | none => [] | some s => [("text", JValue.str s)]) ++
     (match p.decision with | none => [] | some s => [("decision", JValue.str s)]) ++
     (match p.outcome with | none => [] | some s => [("outcome", JValue.str s)]) ++
     (match p.scores with
        | none => []
        | some sc => [("scores", jobj
            ((match sc.rich with | none => [] | some r => [("rich", JValue.num r)]) ++
             (match sc.business with | none => [] | some b => [("business", JValue.num b)])))]) ++
     (match p.bubbles with | none => [] | some s => [("bubbles", JValue.str s)]) ++
     (match p.livenessProof with | none => [] | some lp => [("livenessProof", livenessToJ lp)]))

def authorToJ (a : SegmentAuthor) : JValue :=
  jobj
    ((match a.hid with | none => [] | some s => [("hid", JValue.str s)]) ++
     (match a.pubJwk with | none => [] | some s => [("pubJwk", JValue.str s)]) ++
     (match a.livenessProof with | none => [] | some lp => [("livenessProof", livenessToJ lp)]))

/-- The segment without its signature field, as a JavaScript object
(the spread-and-delete in getSignableContent). -/
def segmentSignableJ (s : Segment) : JValue :=
  jobj
    [("v", JValue.num s.v),
     ("seq", JValue.num s.seq),
     ("timestamp", JValue.num s.timestamp),
     ("nonce", JValue.str s.nonce),
     ("type", JValue.str s.type),
     ("payload", payloadToJ s.payload),
     ("prev_hash", JValue.str s.prev_hash),
     ("unlocker_ref", jNullableStr s.unlocker_ref),
     ("unlocked_ref", jNullableStr s.unlocked_ref),
     ("previous_owner", jNullableStr s.previous_owner),
     ("current_owner", JValue.str s.current_owner),
     ("author", authorToJ s.author)]

/-- getSignableContent from src/segment.js: canonical JSON of the segment
minus the signature. -/
def getSignableContent (s : Segment) : String :=
  canonicalize (segmentSignableJ s)

/-- createSegment from src/segment.js.  `now` stands for Date.now() and
`nonce` for randomHex(16); both are host primitives. -/
def createSegment (hid : String) (pubJwk : Option String) (prevHash : String)
    (seq : Int) (type : String) (payload : Payload)
    (previousOwner : Option String) (unlockerRef : Option String)
    (unlockedRef : Option String) (now : Int) (nonce : String) : Segment :=
  { v := PROTOCOL_VERSION
    seq := seq
    timestamp := now
    nonce := nonce
    type := type
    payload := payload
    prev_hash := prevHash
    unlocker_ref := unlockerRef
    unlocked_ref := unlockedRef
    previous_owner := previousOwner
    current_owner := hid
    author := { hid := some hid, pubJwk := pubJwk, livenessProof := none }
    signature := none }

/-- signSegment from src/segment.js; `sign` is the host ECDSA primitive
applied to the signable content. -/
def signSegment (sign : String → String) (s : Segment) : Segment :=
  { s with signature := some (sign (getSignableContent s)) }

/-- validateSegmentStructure from src/segment.js, on the typed model.
Checks that hold by typing (typeof number/string/object) are omitted;
the human-readable reason strings are elided. -/
def validateSegmentStructure (s : Segment) : Bool :=
  (1 ≤ s.v) &&
  (1 ≤ s.seq) &&
  (0 ≤ s.timestamp) &&
  (s.nonce.length = 32) &&
  (STA_TYPES_values.contains s.type) &&
  (strStartsWith s.current_owner "HID-") &&
  s.author.hid.isSome &&
  (match s.author.pubJwk with | none => false | some k => k ≠ "") &&
  s.signature.isSome

/-- affectsCaps from src/segment.js. -/
def affectsCaps (type : String) : Bool :=
  ["chat.user", "ai.advice", "biz.decision", "capsule.mint"].contains type

/-- isMessageType from src/segment.js. -/
def isMessageType (type : String) : Bool :=
  ["chat.user", "ai.advice", "biz.decision", "biz.outcome", "chat.append"].contains type

/-- getMessageDirection from src/segment.js. -/
def getMessageDirection (type : String) : Option String :=
  if type = "chat.user" ∨ type = "biz.decision" then some "out"
  else if type = "ai.advice" ∨ type = "biz.outcome" then some "in"
  else none

/-- getMessageTag from src/segment.js. -/
def getMessageTag (type : String) : Option String :=
  if type = "biz.decision" then some "DECISION"
  else if type = "biz.outcome" then some "OUTCOME"
  else none

/-! ### Caps accountant (src/caps.js)

The caps store keys records by `"daily:hid"` etc.; the commit path only
ever touches the record of the committing identity, which is what the
model carries.  The in-memory cache is kept in lockstep with the store by
every code path (each save immediately re-caches the same record), so the
model carries the single coherent record. -/

structure CapsRecord where
  daily : Int
  monthly : Int
  yearly : Int
  total : Int
  dailyReset : Int
  monthlyReset : Int
  yearlyReset : Int
deriving DecidableEq

/-! JavaScript Date UTC arithmetic, as used by getNextDailyReset /
getNextMonthlyReset / getNextYearlyReset, is modelled through the
proleptic Gregorian civil calendar on days since the Unix epoch
(86400000 ms per day, floor division). -/

def MS_PER_DAY : Int := 86400000

/-- Civil date (year, month 1..12, day 1..31) of a count of days since
1970-01-01, proleptic Gregorian (the arithmetic JavaScript Date uses). -/
def civilFromDays (z : Int) : Int × Int × Int :=
  let z := z + 719468
  let era := z.fdiv 146097
  let doe := z - era * 146097
  let yoe := (doe - doe.fdiv 1460 + doe.fdiv 36524 - doe.fdiv 146096).fdiv 365
  let y := yoe + era * 400
  let doy := doe - (365 * yoe + yoe.fdiv 4 - yoe.fdiv 100)
  let mp := (5 * doy + 2).fdiv 153
  let d := doy - (153 * mp + 2).fdiv 5 + 1
  let m := if mp < 10 then mp + 3 else mp - 9
  (if m ≤ 2 then y + 1 else y, m, d)

/-- Days since 1970-01-01 of a civil date, proleptic Gregorian. -/
def daysFromCivil (y m d : Int) : Int :=
  let y := if m ≤ 2 then y - 1 else y
  let era := y.fdiv 400
  let yoe := y - era * 400
  let mp := if 2 < m then m - 3 else m + 9
  let doy := (153 * mp + 2).fdiv 5 + d - 1
  let doe := yoe * 365 + yoe.fdiv 4 - yoe.fdiv 100 + doy
  era * 146097 + doe - 719468

/-- getNextDailyReset: date.setUTCHours(24,0,0,0), the next UTC midnight
strictly after the start of the current UTC day. -/
def getNextDailyReset (now : Int) : Int :=
  (now.fdiv MS_PER_DAY + 1) * MS_PER_DAY

/-- getNextMonthlyReset: date.setUTCMonth(m+1,1); setUTCHours(0,0,0,0) —
midnight UTC on the first of the next month. -/
def getNextMonthlyReset (now : Int) : Int :=
  let c := civilFromDays (now.fdiv MS_PER_DAY)
  let y := c.1
  let m := c.2.1
  (if m = 12 then daysFromCivil (y + 1) 1 1 else daysFromCivil y (m + 1) 1) * MS_PER_DAY

/-- getNextYearlyReset: Jan 1 of next year, midnight UTC. -/
def getNextYearlyReset (now : Int) : Int :=
  let c := civilFromDays (now.fdiv MS_PER_DAY)
  daysFromCivil (c.1 + 1) 1 1 * MS_PER_DAY

/-- createEmptyCaps from src/caps.js. -/
def createEmptyCaps (now : Int) : CapsRecord :=
  { daily := 0, monthly := 0, yearly := 0, total := 0
    dailyReset := getNextDailyReset now
    monthlyReset := getNextMonthlyReset now
    yearlyReset := getNextYearlyReset now }

/-- needsReset from src/caps.js. -/
def needsReset (caps : CapsRecord) (now : Int) : Bool :=
  caps.dailyReset ≤ now ∨ caps.monthlyReset ≤ now ∨ caps.yearlyReset ≤ now

/-- applyResets from src/caps.js (three independent window checks). -/
def applyResets (caps : CapsRecord) (now : Int) : CapsRecord :=
  let caps := if caps.dailyReset ≤ now then
      { caps with daily := 0, dailyReset := getNextDailyReset now } else caps
  let caps := if caps.monthlyReset ≤ now then
      { caps with monthly := 0, monthlyReset := getNextMonthlyReset now } else caps
  if caps.yearlyReset ≤ now then
      { caps with yearly := 0, yearlyReset := getNextYearlyReset now } else caps

/-- getCurrentCaps from src/caps.js: load the record, apply any due
resets, persist and cache the result.  The returned record is both the
new stored state and (via formatCaps, which copies the counters) what
the caller observes. -/
def getCurrentCaps (caps : CapsRecord) (now : Int) : CapsRecord :=
  applyResets caps now

structure IncResult where
  ok : Bool
  reason : Option String
deriving DecidableEq

/-- incrementCaps from src/caps.js: read the current (reset-applied)
record, refuse when any counter plus the amount would exceed its cap,
otherwise increment all four counters and persist. -/
def incrementCaps (caps : CapsRecord) (now : Int) (amount : Int) :
    CapsRecord × IncResult :=
  let c := getCurrentCaps caps now
  if DAILY_CAP < c.daily + amount then
    (c, { ok := false, reason := some "daily_cap_exceeded" })
  else if MONTHLY_CAP < c.monthly + amount then
    (c, { ok := false, reason := some "monthly_cap_exceeded" })
  else if YEARLY_CAP < c.yearly + amount then
    (c, { ok := false, reason := some "yearly_cap_exceeded" })
  else
    ({ c with daily := c.daily + amount, monthly := c.monthly + amount,
              yearly := c.yearly + amount, total := c.total + amount },
     { ok := true, reason := none })

/-! ### Store state (src/idb.js helpers) -/

structure ReadOnlyFlag where
  enabled : Bool
  reason : Option String
  timestamp : Option Int
  clearedAt : Option Int
deriving DecidableEq

structure MetaState where
  chain_head : Option String
  chain_len : Option Int
  read_only : Option ReadOnlyFlag
deriving DecidableEq

/-- A message-projection record (createMessageProjection output). -/
structure MessageRec where
  id : String
  seq : Int
  ts : Int
  type : String
  peer : Option String
  dir : Option String
  tag : Option String
  text : String
  hid : String
  decision : Option String
  outcome : Option String
  scores : Option Scores
  bubbles : Option String
deriving DecidableEq

structure DB where
  state_chain : List Segment
  sync_log : List (String × Int)
  messages : List MessageRec
  meta : MetaState
deriving DecidableEq

def emptyDB : DB :=
  { state_chain := [], sync_log := [], messages := []
    meta := { chain_head := none, chain_len := none, read_only := none } }

/-- getChainHead: meta chain_head with `|| 'GENESIS'` (falsy fallback). -/
def getChainHead (db : DB) : String :=
  match db.meta.chain_head with
  | none => GENESIS_HASH
  | some h => if h = "" then GENESIS_HASH else h

/-- getChainLen: meta chain_len with `|| 0`. -/
def getChainLen (db : DB) : Int :=
  match db.meta.chain_len with
  | none => 0
  | some n => n

/-- getSTABySeq: the state_chain store is keyed by seq. -/
def getSTABySeq (db : DB) (seq : Int) : Option Segment :=
  db.state_chain.find? (fun s => s.seq = seq)

/-- nonceExists: the sync_log store is keyed by nonce. -/
def nonceExists (db : DB) (nonce : String) : Bool :=
  db.sync_log.any (fun p => p.1 = nonce)

/-- isReadOnlyMode from src/integrity.js: readOnly?.enabled === true. -/
def isReadOnlyMode (db : DB) : Bool :=
  match db.meta.read_only with
  | some f => f.enabled
  | none => false

/-- enterReadOnlyMode from src/integrity.js. -/
def enterReadOnlyMode (db : DB) (now : Int) : DB :=
  { db with meta :=
      { db.meta with read_only := some ⟨true, some "corruption_detected", some now, none⟩ } }

/-- exitReadOnlyMode from src/integrity.js. -/
def exitReadOnlyMode (db : DB) (now : Int) : DB :=
  { db with meta :=
      { db.meta with read_only := some ⟨false, none, none, some now⟩ } }

/-! ### The nine-rule validator (src/validation.js) -/

structure VRes where
  ok : Bool
  rule : Option Int
  reason : Option String
deriving DecidableEq

def vpass : VRes := { ok := true, rule := none, reason := none }

def vfail (rule : Int) (reason : String) : VRes :=
  { ok := false, rule := some rule, reason := some reason }

/-- Rule 1 (validateCounterRelationship): when both refs are present,
parse their leading seq components ("seq:nonce"; parseInt is modelled on
well-formed refs by String.toInt? of the part before the colon), require
unlocker.seq > unlocked.seq, and require both referenced segments to
exist. -/
def validateCounterRelationship (db : DB) (s : Segment) : VRes :=
  match s.unlocker_ref, s.unlocked_ref with
  | some ur, some lr =>
      match parseIntPrefix (refHead ur), parseIntPrefix (refHead lr) with
      | some unlockerSeq, some unlockedSeq =>
          if unlockerSeq ≤ unlockedSeq then vfail 1 "counter_order"
          else
            match getSTABySeq db unlockerSeq, getSTABySeq db unlockedSeq with
            | some _, some _ => vpass
            | _, _ => vfail 1 "missing_refs"
      | _, _ => vfail 1 "invalid_refs"
  | _, _ => vpass

/-- Rule 2 (validateCaps): without a caps tracker the check is skipped;
with one, read the current (reset-applied) caps of the committing
identity and refuse when a counter is already at or above its cap.
Reading persists any due reset, so the caps state is threaded through. -/
def validateCaps (s : Segment) (capsTracker : Option CapsRecord) (now : Int) :
    VRes × Option CapsRecord :=
  match capsTracker with
  | none => (vpass, none)
  | some c =>
      let caps := getCurrentCaps c now
      if DAILY_CAP ≤ caps.daily then (vfail 2 "daily_cap_exceeded", some caps)
      else if MONTHLY_CAP ≤ caps.monthly then (vfail 2 "monthly_cap_exceeded", some caps)
      else if YEARLY_CAP ≤ caps.yearly then (vfail 2 "yearly_cap_exceeded", some caps)
      else (vpass, some caps)

/-- Rule 3 (validateRateLimit): if the chain is non-empty and the segment
stored at the current length shares the author hid with the candidate,
fail when the candidate is less than MIN_BLOCK_INTERVAL_MS after it. -/
def validateRateLimit (db : DB) (s : Segment) : VRes :=
  let currentSeq := getChainLen db
  if 0 < currentSeq then
    match getSTABySeq db currentSeq with
    | some prevSeg =>
        if prevSeg.author.hid = s.author.hid then
          let timeDiff := s.timestamp - prevSeg.timestamp
          if timeDiff < MIN_BLOCK_INTERVAL_MS then vfail 3 "rate_limit" else vpass
        else vpass
    | none => vpass
  else vpass

/-- Rule 4 (validateLiveness): a proof found in the payload or the author
(JavaScript `||`) must be an object, and `Date.now() − (proof.timestamp
|| 0)` must not exceed UTC_TOLERANCE_MS; absence passes with a logged
warning. -/
def validateLiveness (now : Int) (s : Segment) : VRes :=
  match s.payload.livenessProof <|> s.author.livenessProof with
  | none => vpass
  | some .nonObject => vfail 4 "invalid_liveness"
  | some (.objProof ts) =>
      let proofAge := now - ts.getD 0
      if UTC_TOLERANCE_MS < proofAge then vfail 4 "stale_liveness" else vpass

/-- Rule 5 (validateOwnerTransition). -/
def validateOwnerTransition (s : Segment) : VRes :=
  if s.type = "tvm.transfer" then
    match truthyStr s.previous_owner with
    | none => vfail 5 "missing_previous_owner"
    | some p => if p = s.current_owner then vfail 5 "same_owner" else vpass
  else vpass

/-- Rule 6 (validateHistoryHash). -/
def validateHistoryHash (db : DB) (s : Segment) : VRes :=
  if s.prev_hash ≠ getChainHead db then vfail 6 "bad_prev_hash" else vpass

/-- Rule 7 (validateSequence). -/
def validateSequence (db : DB) (s : Segment) : VRes :=
  if s.seq ≠ getChainLen db + 1 then vfail 7 "bad_seq" else vpass

/-- Rule 8 (validateSignature); `verify` is the host ECDSA primitive on
(author public key, signable content, signature).  The import/verify
exception path (reason signature_error) is not modelled. -/
def validateSignature (verify : Option String → String → Option String → Bool)
    (s : Segment) : VRes :=
  if verify s.author.pubJwk (getSignableContent s) s.signature then vpass
  else vfail 8 "bad_signature"

/-- Rule 9 (validateNonce). -/
def validateNonce (db : DB) (s : Segment) : VRes :=
  if nonceExists db s.nonce then vfail 9 "replay_nonce" else vpass

/-- One sequential step of validateSegment: when the rule result is not
ok, return it with the current caps state (the source's early return);
otherwise continue with the remaining rules. -/
def vstep (r : VRes) (caps : Option CapsRecord)
    (next : Option CapsRecord → VRes × Option CapsRecord) :
    VRes × Option CapsRecord :=
  if r.ok then next caps else (r, caps)

/-- validateSegment from src/validation.js: the structure pre-check and
the nine rules in order, first failure short-circuiting (vstep); rule 4
runs only when skipLivenessCheck is false.  Returns the verdict and the
caps state after rule 2's read. -/
def validateSegment (db : DB) (s : Segment) (capsTracker : Option CapsRecord)
    (skipLivenessCheck : Bool) (now : Int)
    (verify : Option String → String → Option String → Bool) :
    VRes × Option CapsRecord :=
  if !validateSegmentStructure s then (vfail 0 "invalid_structure", capsTracker)
  else
    vstep (validateCounterRelationship db s) capsTracker fun caps0 =>
    vstep (validateCaps s caps0 now).1 (validateCaps s caps0 now).2 fun caps =>
    vstep (validateRateLimit db s) caps fun caps =>
    vstep (if skipLivenessCheck then vpass else validateLiveness now s) caps fun caps =>
    vstep (validateOwnerTransition s) caps fun caps =>
    vstep (validateHistoryHash db s) caps fun caps =>
    vstep (validateSequence db s) caps fun caps =>
    vstep (validateSignature verify s) caps fun caps =>
    vstep (validateNonce db s) caps fun caps => (vpass, caps)

/-! ### State manager (src/state.js) -/

/-- In-memory projections of the StateManager: per-chat message lists (a
Map in insertion order) and the two scores. -/
structure Proj where
  messages : List (String × List MessageRec)
  richScore : Int
  businessScore : Int
deriving DecidableEq

def emptyProj : Proj := { messages := [], richScore := 0, businessScore := 0 }

/-- createMessageProjection from src/state.js. -/
def createMessageProjection (sta : Segment) : MessageRec :=
  { id := toString sta.seq ++ ":" ++ sta.nonce
    seq := sta.seq
    ts := sta.timestamp
    type := sta.type
    peer := (truthyStr sta.payload.chatId).orElse
              (fun _ => truthyStr sta.payload.selected_character)
    dir := getMessageDirection sta.type
    tag := getMessageTag sta.type
    text := (truthyStr sta.payload.text).getD ""
    hid := (truthyStr sta.author.hid).getD sta.current_owner
    decision := truthyStr sta.payload.decision
    outcome := truthyStr sta.payload.outcome
    scores := sta.payload.scores
    bubbles := truthyStr sta.payload.bubbles }

/-- addToMessagesProjection from src/state.js: push onto the chat's list,
creating the Map entry when absent (`message.peer || 'default'`). -/
def addToMessagesProjection (mm : List (String × List MessageRec))
    (m : MessageRec) : List (String × List MessageRec) :=
  let chatId := (truthyStr m.peer).getD "default"
  if mm.any (fun p => p.1 = chatId) then
    mm.map (fun p => if p.1 = chatId then (p.1, p.2 ++ [m]) else p)
  else
    mm ++ [(chatId, [m])]

/-- updateScores from src/state.js: an explicit numeric scores field
overrides, then decision/outcome bonuses apply (clipped to 100). -/
def updateScores (proj : Proj) (sta : Segment) : Proj :=
  let proj :=
    match sta.payload.scores with
    | none => proj
    | some sc =>
        let proj := match sc.rich with
          | some r => { proj with richScore := r }
          | none => proj
        match sc.business with
        | some b => { proj with businessScore := b }
        | none => proj
  let proj :=
    if sta.type = "biz.decision" ∧ sta.payload.decision = some "ACCEPT" then
      { proj with richScore := min 100 (proj.richScore + 2) }
    else proj
  if sta.type = "biz.outcome" ∧ sta.payload.outcome = some "SUCCESS" then
    { proj with richScore := min 100 (proj.richScore + 5)
                businessScore := min 100 (proj.businessScore + 3) }
  else proj

structure CommitResult where
  ok : Bool
  seq : Option Int
  head : Option String
  reason : Option String
deriving DecidableEq

/-- appendSTA from src/state.js: inside one readwrite transaction over
state_chain, sync_log, messages and meta, add the segment and its nonce,
project message-bearing types, update the in-memory scores, compute the
new head hash from the signable content and the signature, and update
meta.  `hash` is the host sha256Hex primitive. -/
def appendSTA (db : DB) (proj : Proj) (hash : String → String) (sta : Segment) :
    DB × Proj × CommitResult :=
  let db1 := { db with state_chain := db.state_chain ++ [sta]
                       sync_log := db.sync_log ++ [(sta.nonce, sta.timestamp)] }
  let dbp :=
    if isMessageType sta.type then
      let message := createMessageProjection sta
      ({ db1 with messages := db1.messages ++ [message] },
       { proj with messages := addToMessagesProjection proj.messages message })
    else (db1, proj)
  let proj2 := updateScores dbp.2 sta
  let signable := getSignableContent sta
  let newHead := hash (signable ++ "|" ++ sta.signature.getD "")
  let db3 := { dbp.1 with meta :=
      { dbp.1.meta with chain_head := some newHead, chain_len := some sta.seq } }
  (db3, proj2, { ok := true, seq := some sta.seq, head := some newHead, reason := none })

/-- The StateManager's identity (hid, public key, signing handle). -/
structure Identity where
  hid : String
  pubJwk : Option String
deriving DecidableEq

/-- The host primitives commitAction consumes: Date.now(), randomHex(16),
sha256Hex, ECDSA sign (closed over the identity's private key) and ECDSA
verify. -/
structure HostPrims where
  now : Int
  nonce : String
  hash : String → String
  sign : String → String
  verify : Option String → String → Option String → Bool

/-- The segment commitAction builds and signs: prev_hash from the chain
head, seq = chain length + 1, the caller's type/payload/previousOwner. -/
def commitSegment (ident : Identity) (P : HostPrims) (db : DB)
    (type : String) (payload : Payload) (previousOwner : Option String) : Segment :=
  signSegment P.sign
    (createSegment ident.hid ident.pubJwk (getChainHead db) (getChainLen db + 1)
      type payload previousOwner none none P.now P.nonce)

/-- commitAction from src/state.js: build and sign the segment, validate
with skipLivenessCheck set to true (the WebAuthn TODO), return the
validation failure with no writes, otherwise append.  The caps state is
whatever rule 2's read left behind; commitAction itself never increments
caps. -/
def commitAction (db : DB) (proj : Proj) (capsTracker : Option CapsRecord)
    (ident : Identity) (P : HostPrims) (type : String) (payload : Payload)
    (previousOwner : Option String) :
    DB × Proj × Option CapsRecord × CommitResult :=
  let signedSegment := commitSegment ident P db type payload previousOwner
  let validation := validateSegment db signedSegment capsTracker true P.now P.verify
  if !validation.1.ok then
    (db, proj, validation.2,
     { ok := false, seq := none, head := none, reason := validation.1.reason })
  else
    let r := appendSTA db proj P.hash signedSegment
    (r.1, r.2.1, validation.2, r.2.2)

/-- The app-context commitAction from src/index.js: `readOnly` is the
value of isReadOnlyMode captured once by initializeApp; when it is set
the commit is refused before the StateManager is consulted. -/
def appCommitAction (readOnly : Bool) (db : DB) (proj : Proj)
    (capsTracker : Option CapsRecord) (ident : Identity) (P : HostPrims)
    (type : String) (payload : Payload) :
    DB × Proj × Option CapsRecord × CommitResult :=
  if readOnly then
    (db, proj, capsTracker, { ok := false, seq := none, head := none
                              reason := some "read_only_mode" })
  else commitAction db proj capsTracker ident P type payload none

/-! ### Projection rebuild (src/state.js rebuildProjections) -/

/-- Stable insertion used to model `allSTAs.sort((a,b) => a.seq - b.seq)`. -/
def insertBySeq (x : Segment) : List Segment → List Segment
  | [] => [x]
  | y :: ys => if y.seq ≤ x.seq then y :: insertBySeq x ys else x :: y :: ys

/-- Sort the stored segments by seq. -/
def sortBySeq : List Segment → List Segment
  | [] => []
  | x :: xs => insertBySeq x (sortBySeq xs)

/-- One loop iteration of rebuildProjections (identical calls to the
commit path: createMessageProjection / addToMessagesProjection /
updateScores). -/
def rebuildStep (proj : Proj) (sta : Segment) : Proj :=
  let proj :=
    if isMessageType sta.type then
      { proj with messages :=
          addToMessagesProjection proj.messages (createMessageProjection sta) }
    else proj
  updateScores proj sta

/-- rebuildProjections from src/state.js: clear the views, return
immediately on an empty chain, otherwise replay all stored segments in
seq order. -/
def rebuildProjections (db : DB) : Proj :=
  if getChainLen db = 0 then emptyProj
  else (sortBySeq db.state_chain).foldl rebuildStep emptyProj

/-! ### Capsules (TVM module, src/unnamed/part_001) -/

structure CapsuleMsg where
  text : Option String
deriving DecidableEq

structure CapsuleAnalysis where
  motivator : Option String
  category : Option String
  richScore : Option Int
  businessScore : Option Int
  ecfScore : Option Rat
deriving DecidableEq

structure Capsule where
  id : String
  sessionId : String
  ownerHid : String
  richScore : Int
  businessScore : Int
  ecfScore : Rat
  motivator : String
  category : String
  contentHash : String
  messageCount : Int
  status : String
  rejectionReason : Option String
  createdAt : Int
deriving DecidableEq

/-- The content object hashCapsuleContent builds, rendered by
JSON.stringify: keys in insertion order (messageTexts, motivator,
category, richScore), undefined-valued keys omitted. -/
def capsuleContentString (messages : List CapsuleMsg) (analysis : CapsuleAnalysis) :
    String :=
  let fields : List (Option String) :=
    [some ("\"messageTexts\":" ++
       jsonQuote (String.intercalate "|" (messages.map (fun m => m.text.getD "")))),
     analysis.motivator.map (fun s => "\"motivator\":" ++ jsonQuote s),
     analysis.category.map (fun s => "\"category\":" ++ jsonQuote s),
     analysis.richScore.map (fun n => "\"richScore\":" ++ toString n)]
  "\x7b" ++ String.intercalate "," (fields.filterMap id) ++ "\x7d"

/-- hashCapsuleContent from the TVM module: sha256Hex of
JSON.stringify(content) — NOT of canonicalize(content). -/
def hashCapsuleContent (hash : String → String) (messages : List CapsuleMsg)
    (analysis : CapsuleAnalysis) : String :=
  hash (capsuleContentString messages analysis)

/-- Modelled from the spec: `contentHash =
SHA256(canonical({messageTexts, motivator, category, richScore}))` with
the canonical encoding sorting object keys lexicographically at every
depth (src/crypto.js canonicalize). -/
def hashCapsuleContentSpec (hash : String → String) (messages : List CapsuleMsg)
    (analysis : CapsuleAnalysis) : String :=
  hash (canonicalize (jobj
    [("messageTexts",
       JValue.str (String.intercalate "|" (messages.map (fun m => m.text.getD "")))),
     ("motivator", match analysis.motivator with
        | none => JValue.undefined | some s => JValue.str s),
     ("category", match analysis.category with
        | none => JValue.undefined | some s => JValue.str s),
     ("richScore", jOptNum analysis.richScore)]))

/-- checkEligibility from the TVM module. -/
def checkEligibility (richScore businessScore : Int) (ecfScore : Rat)
    (messageCount : Int) : Bool :=
  ¬ (richScore < MIN_RICH_SCORE) ∧
  ¬ (businessScore < MIN_BUSINESS_SCORE) ∧
  ¬ (ecfScore < MIN_ECF_THRESHOLD) ∧
  ¬ (messageCount < SESSION_MESSAGE_LIMIT)

/-- createCapsule from the TVM module; `ridHex` stands for randomHex(8)
and `now` for Date.now(). -/
def createCapsule (hash : String → String) (ridHex : String) (now : Int)
    (sessionId ownerHid : String) (messages : List CapsuleMsg)
    (analysis : CapsuleAnalysis) : Capsule :=
  let richScore := analysis.richScore.getD 0
  let businessScore := analysis.businessScore.getD 0
  let ecfScore := analysis.ecfScore.getD 0
  let contentHash := hashCapsuleContent hash messages analysis
  let eligible := checkEligibility richScore businessScore ecfScore
                    (messages.length : Int)
  { id := "CAP-" ++ ridHex
    sessionId := sessionId
    ownerHid := ownerHid
    richScore := richScore
    businessScore := businessScore
    ecfScore := ecfScore
    motivator := (truthyStr analysis.motivator).getD "unknown"
    category := (truthyStr analysis.category).getD "unknown"
    contentHash := contentHash
    messageCount := (messages.length : Int)
    status := if eligible then "pending" else "rejected"
    rejectionReason := none
    createdAt := now }

/-! ### Derived notions used by the statements -/

/-- The caps-counter invariant of the spec: no counter exceeds its cap. -/
def CapsInv (c : CapsRecord) : Prop :=
  c.daily ≤ DAILY_CAP ∧ c.monthly ≤ MONTHLY_CAP ∧ c.yearly ≤ YEARLY_CAP

instance (c : CapsRecord) : Decidable (CapsInv c) := by
  unfold CapsInv; infer_instance

/-- An observable operation on one identity's caps record: a read
(getCurrentCaps, which may fire resets) or an increment attempt. -/
inductive CapsOp where
  | read (now : Int)
  | inc (now amount : Int)

def capsStep (c : CapsRecord) : CapsOp → CapsRecord
  | .read now => getCurrentCaps c now
  | .inc now amount => (incrementCaps c now amount).1

def runCapsOps (c : CapsRecord) (ops : List CapsOp) : CapsRecord :=
  ops.foldl capsStep c

/-- One commit step of a chain built by successive appendSTA calls
(the durable and in-memory state threaded through commits). -/
def commitFoldStep (hash : String → String) (dp : DB × Proj) (sta : Segment) :
    DB × Proj :=
  let r := appendSTA dp.1 dp.2 hash sta
  (r.1, r.2.1)

/-- The store and the incrementally-built projections after committing
the given segments, in order, onto an empty store. -/
def commitChain (hash : String → String) (stas : List Segment) : DB × Proj :=
  stas.foldl (commitFoldStep hash) (emptyDB, emptyProj)

/-! ### Concrete sample inputs for the witnesses -/

def emptyPayload : Payload :=
  { chatId := none, selected_character := none, text := none, decision := none
    outcome := none, scores := none, bubbles := none, livenessProof := none }

def chatPayload : Payload :=
  { emptyPayload with chatId := some "hakim", text := some "hello" }

def nonceA : String := "aaaaaaaaaaaaaaaaaaaaaaaaaaaaaaaa"

def nonceB : String := "bbbbbbbbbbbbbbbbbbbbbbbbbbbbbbbb"

def nonceC : String := "cccccccccccccccccccccccccccccccc"

def sampleIdent : Identity := { hid := "HID-TEST", pubJwk := some "PK" }

def now0 : Int := 1700000000000

def sampleP : HostPrims :=
  { now := now0, nonce := nonceB
    hash := fun s => "H:" ++ s
    sign := fun _ => "SIG"
    verify := fun _ _ _ => true }

def baseSeg : Segment :=
  { v := 2, seq := 1, timestamp := 1000, nonce := nonceA, type := "chat.user"
    payload := chatPayload, prev_hash := GENESIS_HASH
    unlocker_ref := none, unlocked_ref := none, previous_owner := none
    current_owner := "HID-TEST"
    author := { hid := some "HID-TEST", pubJwk := some "PK", livenessProof := none }
    signature := some "SIG" }

/-- A store holding exactly baseSeg. -/
def sampleDB1 : DB :=
  { state_chain := [baseSeg]
    sync_log := [(nonceA, 1000)]
    messages := []
    meta := { chain_head := some "HEAD1", chain_len := some 1, read_only := none } }

/-- Candidate 999 ms after baseSeg, same author. -/
def cand999 : Segment :=
  { baseSeg with seq := 2, timestamp := 1999, nonce := nonceB, prev_hash := "HEAD1" }

/-- Candidate 1000 ms after baseSeg, same author. -/
def cand1000 : Segment :=
  { baseSeg with seq := 2, timestamp := 2000, nonce := nonceB, prev_hash := "HEAD1" }

/-- A segment carrying a liveness proof far in the future. -/
def segFutureProof : Segment :=
  { baseSeg with payload :=
      { chatPayload with livenessProof := some (.objProof (some 1000000)) } }

/-- A segment carrying a stale (too old) liveness proof. -/
def segOldProof : Segment :=
  { baseSeg with payload :=
      { chatPayload with livenessProof := some (.objProof (some 0)) } }

/-- A caps record with counters at 5 and all reset windows still open at
now0. -/
def caps5 : CapsRecord :=
  { daily := 5, monthly := 5, yearly := 5, total := 5
    dailyReset := getNextDailyReset now0
    monthlyReset := getNextMonthlyReset now0
    yearlyReset := getNextYearlyReset now0 }

/-- The store after the read-only latch has been set (after app init). -/
def dbLatched : DB := enterReadOnlyMode emptyDB 5000

def sampleMsgs : List CapsuleMsg := [{ text := some "hi" }, { text := none }]

def sampleAnalysis : CapsuleAnalysis :=
  { motivator := some "greed", category := some "wheat"
    richScore := some 85, businessScore := some 80, ecfScore := some (1/2) }

/-- Three strictly-seq-increasing committed segments for the projection
replay witness. -/
def chainSeg1 : Segment := baseSeg

def chainSeg2 : Segment :=
  { baseSeg with seq := 2, timestamp := 3000, nonce := nonceB, type := "biz.decision"
                 payload := { emptyPayload with chatId := some "hakim", decision := some "ACCEPT" } }

def chainSeg3 : Segment :=
  { baseSeg with seq := 3, timestamp := 5000, nonce := nonceC, type := "capsule.mint"
                 payload := emptyPayload }

def sampleChain : List Segment := [chainSeg1, chainSeg2, chainSeg3]

/-! ### Claim C3: backup-restore eligibility follows the five-case table -/

/-- C3: for every current chain state (length, head) and backup (length,
head), verifyBackupRestoreEligibility decides (canRestore, requiresSync)
exactly by the spec's five-case table: fresh install restores freely, an
older backup, a longer diverged backup (fork) and any other head mismatch
all refuse with requiresSync, and a matching head restores freely. -/
theorem backup_restore_matches_spec_table (backup cur : ChainState) :
    (verifyBackupRestoreEligibility backup (some cur)).canRestore =
      (specRestoreTable backup cur).1 ∧
    (verifyBackupRestoreEligibility backup (some cur)).requiresSync =
      (specRestoreTable backup cur).2 := by
  unfold verifyBackupRestoreEligibility specRestoreTable
  split_ifs <;> simp_all <;> split_ifs <;> simp_all <;> omega

/-! ### Claim C5: the rate-limit rule and its 1000 ms boundary -/

/-- C5: rule 3 fails with reason rate_limit exactly when the chain is
non-empty, the segment stored at the current chain length shares the
candidate's author hid, and the candidate's timestamp is less than
1000 ms after it; otherwise the rule passes.  In particular a same-author
candidate exactly 1000 ms later passes and one 999 ms later fails. -/
theorem rate_limit_iff_and_boundary (db : DB) (seg : Segment) :
    (validateRateLimit db seg = vfail 3 "rate_limit" ↔
      0 < getChainLen db ∧
      ∃ prev, getSTABySeq db (getChainLen db) = some prev ∧
        prev.author.hid = seg.author.hid ∧
        seg.timestamp - prev.timestamp < MIN_BLOCK_INTERVAL_MS) ∧
    (validateRateLimit db seg ≠ vfail 3 "rate_limit" →
      validateRateLimit db seg = vpass) ∧
    (∀ prev, 0 < getChainLen db →
      getSTABySeq db (getChainLen db) = some prev →
      prev.author.hid = seg.author.hid →
      ((seg.timestamp - prev.timestamp = 1000 → validateRateLimit db seg = vpass) ∧
       (seg.timestamp - prev.timestamp = 999 →
         validateRateLimit db seg = vfail 3 "rate_limit"))) := by
  unfold validateRateLimit
  rcases hfind : getSTABySeq db (getChainLen db) with _ | prev
  · by_cases hlen : 0 < getChainLen db <;>
      simp [hlen, hfind, vpass, vfail, MIN_BLOCK_INTERVAL_MS]
  · by_cases hlen : 0 < getChainLen db
    · by_cases hhid : prev.author.hid = seg.author.hid
      · by_cases hdiff : seg.timestamp - prev.timestamp < MIN_BLOCK_INTERVAL_MS <;>
          simp [hlen, hfind, hhid, hdiff, vpass, vfail, MIN_BLOCK_INTERVAL_MS] <;>
          omega
      · simp [hlen, hfind, hhid, vpass, vfail]
    · simp [hlen, hfind, vpass, vfail]

/-- Witness for C5 at a concrete one-segment chain: the same-author
candidate 999 ms later fails rate_limit and the one 1000 ms later
passes. -/
theorem rate_limit_iff_and_boundary_witness :
    validateRateLimit sampleDB1 cand999 = vfail 3 "rate_limit" ∧
    validateRateLimit sampleDB1 cand1000 = vpass :=
  ⟨((rate_limit_iff_and_boundary sampleDB1 cand999).2.2 baseSeg (by decide)
      (by decide) (by decide)).2 (by decide),
   ((rate_limit_iff_and_boundary sampleDB1 cand1000).2.2 baseSeg (by decide)
      (by decide) (by decide)).1 (by decide)⟩

/-! ### Claim C6: liveness freshness is one-sided, not a ±720000 ms window -/

/-- C6 counterexample: at current time 0, a segment carrying a liveness
proof whose timestamp 1000000 lies more than 720000 ms in the future is
accepted by rule 4, contradicting the claim that such a proof is rejected
as stale in either direction. -/
theorem liveness_accepts_far_future_proof :
    (1000000 : Int) - 0 > UTC_TOLERANCE_MS ∧
    validateLiveness 0 segFutureProof = vpass := by
  constructor
  · decide
  · decide

/-- C6 amended: with a liveness proof object attached (payload or
author), rule 4 fails as stale exactly when the proof timestamp is more
than 720000 ms in the PAST (now − ts > 720000); a future-dated timestamp
passes at any distance.  A non-object proof fails invalid_liveness, and a
segment with no proof attached passes. -/
theorem validateLiveness_characterization (now : Int) (seg : Segment) :
    (seg.payload.livenessProof = none → seg.author.livenessProof = none →
      validateLiveness now seg = vpass) ∧
    ((seg.payload.livenessProof <|> seg.author.livenessProof) = some .nonObject →
      validateLiveness now seg = vfail 4 "invalid_liveness") ∧
    (∀ ts, (seg.payload.livenessProof <|> seg.author.livenessProof) =
        some (.objProof ts) →
      (validateLiveness now seg = vfail 4 "stale_liveness" ↔
        UTC_TOLERANCE_MS < now - ts.getD 0) ∧
      (¬ UTC_TOLERANCE_MS < now - ts.getD 0 →
        validateLiveness now seg = vpass)) := by
  unfold validateLiveness
  refine ⟨fun h1 h2 => by simp [h1, h2], fun h => by simp [h], fun ts h => ?_⟩
  rw [h]
  by_cases hage : UTC_TOLERANCE_MS < now - ts.getD 0 <;>
    simp [hage, vpass, vfail]

/-- Witness for C6's amended characterization at concrete inputs: a proof
timestamped 0 read at now = 1000000 is stale; the same segment read at
now = 720000 passes. -/
theorem validateLiveness_characterization_witness :
    validateLiveness 1000000 segOldProof = vfail 4 "stale_liveness" ∧
    validateLiveness 720000 segOldProof = vpass :=
  ⟨(((validateLiveness_characterization 1000000 segOldProof).2.2 (some 0)
      (by decide)).1).mpr (by decide),
   ((validateLiveness_characterization 720000 segOldProof).2.2 (some 0)
      (by decide)).2 (by decide)⟩

/-! ### Claim C7: caps never exceed their caps; resets zero the counters -/

theorem applyResets_inv (c : CapsRecord) (now : Int) (h : CapsInv c) :
    CapsInv (applyResets c now) := by
  unfold CapsInv at h ⊢
  unfold DAILY_CAP MONTHLY_CAP YEARLY_CAP at h ⊢
  simp only [applyResets]
  split_ifs <;> simp_all <;> omega

theorem lt_getNextDailyReset (now : Int) : now < getNextDailyReset now := by
  unfold getNextDailyReset MS_PER_DAY
  have h1 := Int.fdiv_add_fmod now 86400000
  have h2 := Int.fmod_lt_of_pos now (b := 86400000) (by decide)
  omega

theorem capsStep_inv (c : CapsRecord) (op : CapsOp) (h : CapsInv c) :
    CapsInv (capsStep c op) := by
  cases op with
  | read now => exact applyResets_inv c now h
  | inc now amount =>
      have hr : CapsInv (getCurrentCaps c now) := applyResets_inv c now h
      simp only [capsStep, incrementCaps]
      split_ifs with h1 h2 h3
      · exact hr
      · exact hr
      · exact hr
      · unfold CapsInv at hr ⊢
        simp only
        omega

/-- C7: starting from any caps record within its caps, every sequence of
caps operations (reads, which may fire calendar resets, and increments)
keeps daily ≤ 3600, monthly ≤ 36000 and yearly ≤ 120000; incrementCaps
refuses exactly the increments that would exceed a cap (leaving the
reset-applied record unchanged) and otherwise stays within the caps; and
once a reset timestamp is due, the next read exposes a zero counter whose
reset timestamp has been advanced to the next UTC calendar boundary
(next UTC midnight — strictly in the future — / first of next month /
Jan 1 of next year). -/
theorem caps_invariant_and_resets :
    (∀ c ops, CapsInv c → CapsInv (runCapsOps c ops)) ∧
    (∀ c now amount,
      ((incrementCaps c now amount).2.ok = false ↔
        DAILY_CAP < (getCurrentCaps c now).daily + amount ∨
        MONTHLY_CAP < (getCurrentCaps c now).monthly + amount ∨
        YEARLY_CAP < (getCurrentCaps c now).yearly + amount) ∧
      ((incrementCaps c now amount).2.ok = false →
        (incrementCaps c now amount).1 = getCurrentCaps c now) ∧
      ((incrementCaps c now amount).2.ok = true →
        (incrementCaps c now amount).1.daily ≤ DAILY_CAP ∧
        (incrementCaps c now amount).1.monthly ≤ MONTHLY_CAP ∧
        (incrementCaps c now amount).1.yearly ≤ YEARLY_CAP)) ∧
    (∀ c now, c.dailyReset ≤ now →
      (getCurrentCaps c now).daily = 0 ∧
      (getCurrentCaps c now).dailyReset = getNextDailyReset now ∧
      now < getNextDailyReset now) ∧
    (∀ c now, c.monthlyReset ≤ now →
      (getCurrentCaps c now).monthly = 0 ∧
      (getCurrentCaps c now).monthlyReset = getNextMonthlyReset now) ∧
    (∀ c now, c.yearlyReset ≤ now →
      (getCurrentCaps c now).yearly = 0 ∧
      (getCurrentCaps c now).yearlyReset = getNextYearlyReset now) := by
  refine ⟨?_, ?_, ?_, ?_, ?_⟩
  · intro c ops h
    induction ops generalizing c with
    | nil => exact h
    | cons op rest ih => exact ih (capsStep c op) (capsStep_inv c op h)
  · intro c now amount
    simp only [incrementCaps]
    refine ⟨?_, ?_, ?_⟩
    · split_ifs <;> simp_all <;> omega
    · split_ifs <;> simp_all
    · split_ifs <;> simp_all <;> omega
  · intro c now h
    simp only [getCurrentCaps, applyResets]
    refine ⟨?_, ?_, lt_getNextDailyReset now⟩ <;> split_ifs <;> simp_all
  · intro c now h
    simp only [getCurrentCaps, applyResets]
    constructor <;> split_ifs <;> simp_all
  · intro c now h
    simp only [getCurrentCaps, applyResets]
    constructor <;> split_ifs <;> simp_all

/-- Witness for C7 at concrete inputs: from a record with all counters at
5 and every reset window due at now0, one read plus one increment stays
within the caps; and the read at now0 zeroes all three counters and
advances the resets to the concrete UTC boundaries after now0
(2023-11-15, 2023-12-01 and 2024-01-01 UTC midnight). -/
theorem caps_invariant_and_resets_witness :
    CapsInv (runCapsOps ⟨5, 5, 5, 5, now0, now0, now0⟩ [.read now0, .inc now0 1]) ∧
    (getCurrentCaps ⟨5, 5, 5, 5, now0, now0, now0⟩ now0).daily = 0 ∧
    (getCurrentCaps ⟨5, 5, 5, 5, now0, now0, now0⟩ now0).monthly = 0 ∧
    (getCurrentCaps ⟨5, 5, 5, 5, now0, now0, now0⟩ now0).yearly = 0 ∧
    (getCurrentCaps ⟨5, 5, 5, 5, now0, now0, now0⟩ now0).dailyReset = 1700006400000 ∧
    (getCurrentCaps ⟨5, 5, 5, 5, now0, now0, now0⟩ now0).monthlyReset = 1701388800000 ∧
    (getCurrentCaps ⟨5, 5, 5, 5, now0, now0, now0⟩ now0).yearlyReset = 1704067200000 :=
  ⟨caps_invariant_and_resets.1 ⟨5, 5, 5, 5, now0, now0, now0⟩
     [.read now0, .inc now0 1] (by decide),
   (caps_invariant_and_resets.2.2.1 ⟨5, 5, 5, 5, now0, now0, now0⟩ now0
     (by decide)).1,
   (caps_invariant_and_resets.2.2.2.1 ⟨5, 5, 5, 5, now0, now0, now0⟩ now0
     (by decide)).1,
   (caps_invariant_and_resets.2.2.2.2 ⟨5, 5, 5, 5, now0, now0, now0⟩ now0
     (by decide)).1,
   by decide, by decide, by decide⟩

/-! ### Claim C10: commitAction never evaluates the liveness rule -/

theorem rule1_no_liveness_reason (db : DB) (s : Segment) :
    (validateCounterRelationship db s).reason ≠ some "invalid_liveness" ∧
    (validateCounterRelationship db s).reason ≠ some "stale_liveness" := by
  simp only [validateCounterRelationship]
  repeat' split
  all_goals (try split_ifs)
  all_goals simp [vfail, vpass]

theorem rule2_no_liveness_reason (s : Segment) (caps : Option CapsRecord) (now : Int) :
    (validateCaps s caps now).1.reason ≠ some "invalid_liveness" ∧
    (validateCaps s caps now).1.reason ≠ some "stale_liveness" := by
  simp only [validateCaps]
  repeat' split
  all_goals (try split_ifs)
  all_goals simp [vfail, vpass]

theorem rule3_no_liveness_reason (db : DB) (s : Segment) :
    (validateRateLimit db s).reason ≠ some "invalid_liveness" ∧
    (validateRateLimit db s).reason ≠ some "stale_liveness" := by
  simp only [validateRateLimit]
  repeat' split
  all_goals (try split_ifs)
  all_goals simp [vfail, vpass]

theorem rule5_no_liveness_reason (s : Segment) :
    (validateOwnerTransition s).reason ≠ some "invalid_liveness" ∧
    (validateOwnerTransition s).reason ≠ some "stale_liveness" := by
  simp only [validateOwnerTransition]
  repeat' split
  all_goals (try split_ifs)
  all_goals simp [vfail, vpass]

theorem rule6_no_liveness_reason (db : DB) (s : Segment) :
    (validateHistoryHash db s).reason ≠ some "invalid_liveness" ∧
    (validateHistoryHash db s).reason ≠ some "stale_liveness" := by
  simp only [validateHistoryHash]
  repeat' split
  all_goals (try split_ifs)
  all_goals simp [vfail, vpass]

theorem rule7_no_liveness_reason (db : DB) (s : Segment) :
    (validateSequence db s).reason ≠ some "invalid_liveness" ∧
    (validateSequence db s).reason ≠ some "stale_liveness" := by
  simp only [validateSequence]
  repeat' split
  all_goals (try split_ifs)
  all_goals simp [vfail, vpass]

theorem rule8_no_liveness_reason
    (verify : Option String → String → Option String → Bool) (s : Segment) :
    (validateSignature verify s).reason ≠ some "invalid_liveness" ∧
    (validateSignature verify s).reason ≠ some "stale_liveness" := by
  simp only [validateSignature]
  repeat' split
  all_goals (try split_ifs)
  all_goals simp [vfail, vpass]

theorem rule9_no_liveness_reason (db : DB) (s : Segment) :
    (validateNonce db s).reason ≠ some "invalid_liveness" ∧
    (validateNonce db s).reason ≠ some "stale_liveness" := by
  simp only [validateNonce]
  repeat' split
  all_goals (try split_ifs)
  all_goals simp [vfail, vpass]

theorem vstep_no_reason (r : VRes) (caps : Option CapsRecord)
    (next : Option CapsRecord → VRes × Option CapsRecord)
    (hr : r.reason ≠ some "invalid_liveness" ∧ r.reason ≠ some "stale_liveness")
    (hnext : ∀ c, (next c).1.reason ≠ some "invalid_liveness" ∧
                  (next c).1.reason ≠ some "stale_liveness") :
    (vstep r caps next).1.reason ≠ some "invalid_liveness" ∧
    (vstep r caps next).1.reason ≠ some "stale_liveness" := by
  unfold vstep
  split_ifs
  · exact hnext caps
  · exact hr

theorem validateSegment_skip_no_liveness (db : DB) (s : Segment)
    (caps : Option CapsRecord) (now : Int)
    (verify : Option String → String → Option String → Bool) :
    (validateSegment db s caps true now verify).1.reason ≠ some "invalid_liveness" ∧
    (validateSegment db s caps true now verify).1.reason ≠ some "stale_liveness" := by
  have h1 := rule1_no_liveness_reason db s
  have h3 := rule3_no_liveness_reason db s
  have h5 := rule5_no_liveness_reason s
  have h6 := rule6_no_liveness_reason db s
  have h7 := rule7_no_liveness_reason db s
  have h8 := rule8_no_liveness_reason verify s
  have h9 := rule9_no_liveness_reason db s
  simp only [validateSegment]
  split_ifs with hstruct
  · simp [vfail]
  · refine vstep_no_reason _ _ _ h1 fun c0 => ?_
    refine vstep_no_reason _ _ _ (rule2_no_liveness_reason s c0 now) fun c => ?_
    refine vstep_no_reason _ _ _ h3 fun c => ?_
    refine vstep_no_reason _ _ _ (by simp [vpass]) fun c => ?_
    refine vstep_no_reason _ _ _ h5 fun c => ?_
    refine vstep_no_reason _ _ _ h6 fun c => ?_
    refine vstep_no_reason _ _ _ h7 fun c => ?_
    refine vstep_no_reason _ _ _ h8 fun c => ?_
    refine vstep_no_reason _ _ _ h9 fun c => ?_
    simp [vpass]

/-- C10: commitAction unconditionally passes skipLivenessCheck, so rule 4
is never evaluated on the commit path: whatever liveness proof the
payload carries (malformed or arbitrarily old), the commit result is
never a rule-4 failure — its reason is never invalid_liveness nor
stale_liveness. -/
theorem commitAction_never_liveness_failure (db : DB) (proj : Proj)
    (caps : Option CapsRecord) (ident : Identity) (P : HostPrims)
    (type : String) (payload : Payload) (po : Option String) :
    (commitAction db proj caps ident P type payload po).2.2.2.reason ≠
      some "invalid_liveness" ∧
    (commitAction db proj caps ident P type payload po).2.2.2.reason ≠
      some "stale_liveness" := by
  have hv := validateSegment_skip_no_liveness db
    (commitSegment ident P db type payload po) caps P.now P.verify
  simp only [commitAction]
  split_ifs with hok
  · simp_all
  · simp [appendSTA]

/-! ### Claim C2: the read-only latch and the commit path -/

/-- C2 counterexample: the persistent read-only latch is set (after app
initialization sampled it clear), yet a commit through the app context
does not return read_only_mode — it reaches the validator and the append
path, because the gate tests the snapshot taken by initializeApp, and
StateManager.commitAction itself never consults the latch.  The claim
that every commit returns read_only_mode whenever the latch is set is
therefore false at this input. -/
theorem read_only_latch_not_consulted_after_init :
    isReadOnlyMode dbLatched = true ∧
    (appCommitAction (isReadOnlyMode emptyDB) dbLatched emptyProj none
        sampleIdent sampleP "chat.user" chatPayload).2.2.2.reason ≠
      some "read_only_mode" ∧
    (appCommitAction (isReadOnlyMode emptyDB) dbLatched emptyProj none
        sampleIdent sampleP "chat.user" chatPayload).2.2.2.ok = true := by
  refine ⟨by decide, ?_, ?_⟩ <;> decide

/-- C2 amended: a commit through the app context returns
{ok:false, reason:"read_only_mode"} — without invoking the validator and
without writing anything — exactly when the read-only flag was enabled at
the moment initializeApp sampled it; the latch's current value at commit
time is not consulted (StateManager.commitAction never reads it), so a
latch set or cleared after initialization takes effect only on the next
initialization. -/
theorem read_only_gate_is_init_snapshot (db0 dbNow : DB) (proj : Proj)
    (caps : Option CapsRecord) (ident : Identity) (P : HostPrims)
    (type : String) (payload : Payload) :
    (isReadOnlyMode db0 = true →
      appCommitAction (isReadOnlyMode db0) dbNow proj caps ident P type payload =
        (dbNow, proj, caps,
         { ok := false, seq := none, head := none, reason := some "read_only_mode" })) ∧
    (isReadOnlyMode db0 = false →
      appCommitAction (isReadOnlyMode db0) dbNow proj caps ident P type payload =
        commitAction dbNow proj caps ident P type payload none) := by
  unfold appCommitAction
  constructor <;> intro h <;> simp [h]

/-- Witness for C2's amended statement: with the latch set at
initialization time, the concrete commit is refused as read_only_mode
with the store unchanged; with it clear at initialization, the concrete
commit is exactly the StateManager commit. -/
theorem read_only_gate_is_init_snapshot_witness :
    appCommitAction (isReadOnlyMode dbLatched) emptyDB emptyProj none
        sampleIdent sampleP "chat.user" chatPayload =
      (emptyDB, emptyProj, none,
       { ok := false, seq := none, head := none, reason := some "read_only_mode" }) ∧
    appCommitAction (isReadOnlyMode emptyDB) dbLatched emptyProj none
        sampleIdent sampleP "chat.user" chatPayload =
      commitAction dbLatched emptyProj none sampleIdent sampleP "chat.user"
        chatPayload none :=
  ⟨(read_only_gate_is_init_snapshot dbLatched emptyDB emptyProj none
      sampleIdent sampleP "chat.user" chatPayload).1 (by decide),
   (read_only_gate_is_init_snapshot emptyDB dbLatched emptyProj none
      sampleIdent sampleP "chat.user" chatPayload).2 (by decide)⟩

/-! ### Claim C1: the commit path never increments the caps counters -/

/-- C1 failing input, evaluated: a chat.user commit — a cap-affecting
type — succeeds on an empty chain while the committing identity's caps
record (counters at 5, all reset windows open) comes through the commit
completely unchanged: no counter is incremented, because nothing on the
commit path (commitAction / appendSTA) ever calls
CapsTracker.incrementCaps.  The claim (and the spec) say every successful
commit of a cap-affecting type increments all four counters by 1. -/
theorem commit_leaves_caps_counters_unchanged :
    affectsCaps "chat.user" = true ∧
    (commitAction emptyDB emptyProj (some caps5) sampleIdent sampleP
        "chat.user" chatPayload none).2.2.2.ok = true ∧
    (commitAction emptyDB emptyProj (some caps5) sampleIdent sampleP
        "chat.user" chatPayload none).2.2.1 = some caps5 := by
  refine ⟨by decide, by decide, by decide⟩

/-! ### Claim C4: what a successful commit persists -/

/-- C4: whenever commitAction succeeds, the new store holds exactly the
old one extended with the signed segment and its nonce (plus a message
projection exactly for message-bearing types), and meta is updated so
chain_head is the SHA-256 of the canonical segment-without-signature,
a "|" separator and the signature, while chain_len becomes the new
segment's seq; on an empty chain the segment has seq 1, and with the
default head the segment's prev_hash is "GENESIS". -/
theorem commit_success_postconditions (db : DB) (proj : Proj)
    (caps : Option CapsRecord) (ident : Identity) (P : HostPrims)
    (type : String) (payload : Payload) (po : Option String)
    (hok : (commitAction db proj caps ident P type payload po).2.2.2.ok = true) :
    (commitAction db proj caps ident P type payload po).1.state_chain =
      db.state_chain ++ [commitSegment ident P db type payload po] ∧
    (commitAction db proj caps ident P type payload po).1.sync_log =
      db.sync_log ++ [((commitSegment ident P db type payload po).nonce,
                       (commitSegment ident P db type payload po).timestamp)] ∧
    (isMessageType type = true →
      (commitAction db proj caps ident P type payload po).1.messages =
        db.messages ++ [createMessageProjection (commitSegment ident P db type payload po)]) ∧
    (isMessageType type = false →
      (commitAction db proj caps ident P type payload po).1.messages = db.messages) ∧
    (commitAction db proj caps ident P type payload po).1.meta.chain_head =
      some (P.hash (canonicalize (segmentSignableJ (commitSegment ident P db type payload po)) ++
        "|" ++ ((commitSegment ident P db type payload po).signature.getD ""))) ∧
    (commitAction db proj caps ident P type payload po).1.meta.chain_len =
      some (commitSegment ident P db type payload po).seq ∧
    (getChainLen db = 0 → (commitSegment ident P db type payload po).seq = 1) ∧
    (getChainHead db = GENESIS_HASH →
      (commitSegment ident P db type payload po).prev_hash = GENESIS_HASH) := by
  simp only [commitAction] at hok ⊢
  split_ifs at hok ⊢ with hval
  simp only [appendSTA]
  by_cases hmsg : isMessageType type = true
  · have hmsg2 : isMessageType (commitSegment ident P db type payload po).type = true :=
      hmsg
    simp only [hmsg2, if_true]
    refine ⟨trivial, trivial, fun _ => trivial, fun hfalse => ?_, rfl, trivial,
      fun hlen => ?_, fun hhead => ?_⟩
    · rw [hmsg] at hfalse
      exact absurd hfalse (by simp)
    · show getChainLen db + 1 = 1
      omega
    · exact hhead
  · simp only [Bool.not_eq_true] at hmsg
    have hmsg2 : isMessageType (commitSegment ident P db type payload po).type = false :=
      hmsg
    simp only [hmsg2, Bool.false_eq_true, if_false]
    refine ⟨trivial, trivial, fun htrue => ?_, fun _ => trivial, rfl, trivial,
      fun hlen => ?_, fun hhead => ?_⟩
    · rw [hmsg] at htrue
      exact absurd htrue (by simp)
    · show getChainLen db + 1 = 1
      omega
    · exact hhead

/-- Witness for C4: the concrete first commit on the empty store
succeeds, and the postconditions hold for it — in particular seq 1 and
prev_hash GENESIS. -/
theorem commit_success_postconditions_witness :
    (commitAction emptyDB emptyProj none sampleIdent sampleP "chat.user"
        chatPayload none).2.2.2.ok = true ∧
    (commitAction emptyDB emptyProj none sampleIdent sampleP "chat.user"
        chatPayload none).1.meta.chain_len = some 1 ∧
    (commitSegment sampleIdent sampleP emptyDB "chat.user" chatPayload none).seq = 1 ∧
    (commitSegment sampleIdent sampleP emptyDB "chat.user" chatPayload none).prev_hash =
      GENESIS_HASH :=
  ⟨by decide,
   by
     have h := commit_success_postconditions emptyDB emptyProj none sampleIdent
       sampleP "chat.user" chatPayload none (by decide)
     rw [h.2.2.2.2.2.1]
     rfl,
   (commit_success_postconditions emptyDB emptyProj none sampleIdent
       sampleP "chat.user" chatPayload none (by decide)).2.2.2.2.2.2.1 (by decide),
   (commit_success_postconditions emptyDB emptyProj none sampleIdent
       sampleP "chat.user" chatPayload none (by decide)).2.2.2.2.2.2.2 (by decide)⟩

/-! ### Claim C9: the capsule content hash is not the canonical encoding -/

/-- C9 counterexample: with the hash primitive made transparent, at a
concrete session the stored contentHash of the created capsule differs
from the hash of the canonical (key-sorted) encoding the claim
prescribes: hashCapsuleContent feeds JSON.stringify's insertion-order
encoding ("messageTexts", "motivator", "category", "richScore") to the
hash, not canonicalize's sorted one. -/
theorem capsule_content_hash_not_canonical :
    (createCapsule (fun s => s) "cafe0000" now0 "sess-1" "HID-TEST"
        sampleMsgs sampleAnalysis).contentHash ≠
      hashCapsuleContentSpec (fun s => s) sampleMsgs sampleAnalysis := by
  decide

/-- C9 amended: the stored contentHash of a created capsule is the
SHA-256 of the JSON.stringify encoding of {messageTexts, motivator,
category, richScore} with the keys in that insertion order (undefined
analysis fields are omitted), where messageTexts joins the messages'
text fields with '|'; it is not the key-sorted canonical encoding. -/
theorem capsule_content_hash_formula (hash : String → String) (rid : String)
    (now : Int) (sid hid : String) (messages : List CapsuleMsg)
    (a : CapsuleAnalysis) (mv cat : String) (rs : Int)
    (hmv : a.motivator = some mv) (hcat : a.category = some cat)
    (hrs : a.richScore = some rs) :
    (createCapsule hash rid now sid hid messages a).contentHash =
      hash ("\x7b\"messageTexts\":" ++
        jsonQuote (String.intercalate "|" (messages.map (fun m => m.text.getD ""))) ++
        ",\"motivator\":" ++ jsonQuote mv ++
        ",\"category\":" ++ jsonQuote cat ++
        ",\"richScore\":" ++ toString rs ++ "\x7d") := by
  show hashCapsuleContent hash messages a = _
  unfold hashCapsuleContent capsuleContentString
  rw [hmv, hcat, hrs]
  refine congrArg hash (String.ext ?_)
  simp [String.intercalate, String.intercalate.go, String.data_append]

/-- Witness for C9's amended formula at the concrete sample session,
with the exact encoded bytes spelled out. -/
theorem capsule_content_hash_formula_witness :
    (createCapsule (fun s => s) "cafe0000" now0 "sess-1" "HID-TEST"
        sampleMsgs sampleAnalysis).contentHash =
      "\x7b\"messageTexts\":\"hi|\",\"motivator\":\"greed\",\"category\":\"wheat\",\"richScore\":85\x7d" := by
  rw [capsule_content_hash_formula (fun s => s) "cafe0000" now0 "sess-1" "HID-TEST"
    sampleMsgs sampleAnalysis "greed" "wheat" 85 (by decide) (by decide) (by decide)]
  decide

/-! ### Claim C8: rebuilt projections equal the incremental ones -/

theorem appendSTA_proj_eq_rebuildStep (db : DB) (p : Proj) (hash : String → String)
    (sta : Segment) : (appendSTA db p hash sta).2.1 = rebuildStep p sta := by
  by_cases hm : isMessageType sta.type = true <;>
    simp [appendSTA, rebuildStep, hm]

theorem appendSTA_state_chain (db : DB) (p : Proj) (hash : String → String)
    (sta : Segment) :
    (appendSTA db p hash sta).1.state_chain = db.state_chain ++ [sta] := by
  by_cases hm : isMessageType sta.type = true <;> simp [appendSTA, hm]

theorem appendSTA_chain_len (db : DB) (p : Proj) (hash : String → String)
    (sta : Segment) :
    (appendSTA db p hash sta).1.meta.chain_len = some sta.seq := by
  by_cases hm : isMessageType sta.type = true <;> simp [appendSTA, hm]

theorem commitFold_proj (hash : String → String) (stas : List Segment) :
    ∀ db p, (stas.foldl (commitFoldStep hash) (db, p)).2 =
      stas.foldl rebuildStep p := by
  induction stas with
  | nil => intro db p; rfl
  | cons x xs ih =>
      intro db p
      have hstep : commitFoldStep hash (db, p) x =
          ((appendSTA db p hash x).1, rebuildStep p x) := by
        simp [commitFoldStep, appendSTA_proj_eq_rebuildStep]
      simp only [List.foldl_cons, hstep]
      exact ih (appendSTA db p hash x).1 (rebuildStep p x)

theorem commitFold_state_chain (hash : String → String) (stas : List Segment) :
    ∀ db p, (stas.foldl (commitFoldStep hash) (db, p)).1.state_chain =
      db.state_chain ++ stas := by
  induction stas with
  | nil => intro db p; simp
  | cons x xs ih =>
      intro db p
      simp only [List.foldl_cons]
      rw [show commitFoldStep hash (db, p) x =
            ((appendSTA db p hash x).1, (appendSTA db p hash x).2.1) from rfl]
      rw [ih]
      rw [appendSTA_state_chain]
      simp

theorem commitFold_last_chain_len (hash : String → String) (ys : List Segment)
    (last : Segment) :
    ((ys ++ [last]).foldl (commitFoldStep hash) (emptyDB, emptyProj)).1.meta.chain_len =
      some last.seq := by
  rw [List.foldl_append]
  simp only [List.foldl_cons, List.foldl_nil]
  exact appendSTA_chain_len _ _ _ _

theorem sortBySeq_of_sorted (l : List Segment)
    (h : l.Pairwise (fun a b => a.seq < b.seq)) : sortBySeq l = l := by
  induction l with
  | nil => rfl
  | cons x xs ih =>
      rcases List.pairwise_cons.mp h with ⟨hx, htail⟩
      unfold sortBySeq
      rw [ih htail]
      cases xs with
      | nil => rfl
      | cons y ys =>
          have hy : x.seq < y.seq := hx y (by simp)
          unfold insertBySeq
          rw [if_neg (by omega)]

/-- C8: for every sequence of committed segments (strictly increasing
seq ≥ 1, as the validator guarantees for chains built by commit),
replaying the stored chain with rebuildProjections yields exactly the
in-memory projections (per-chat message lists, richScore, businessScore)
that the commit path built incrementally during those commits. -/
theorem rebuild_matches_incremental (hash : String → String) (stas : List Segment)
    (hsorted : stas.Pairwise (fun a b => a.seq < b.seq))
    (hseq : ∀ s ∈ stas, 1 ≤ s.seq) :
    rebuildProjections (commitChain hash stas).1 = (commitChain hash stas).2 := by
  rcases List.eq_nil_or_concat stas with rfl | ⟨ys, last, rfl⟩
  · rfl
  · simp only [List.concat_eq_append] at hsorted hseq ⊢
    have hlen := commitFold_last_chain_len hash ys last
    have hlast : 1 ≤ last.seq := hseq last (by simp)
    have hchain := commitFold_state_chain hash (ys ++ [last]) emptyDB emptyProj
    have hproj := commitFold_proj hash (ys ++ [last]) emptyDB emptyProj
    unfold rebuildProjections commitChain
    rw [show getChainLen
          ((ys ++ [last]).foldl (commitFoldStep hash) (emptyDB, emptyProj)).1 =
          last.seq by simp only [getChainLen, hlen]]
    rw [if_neg (by omega)]
    rw [hchain]
    rw [show emptyDB.state_chain ++ (ys ++ [last]) = ys ++ [last] by simp [emptyDB]]
    rw [sortBySeq_of_sorted _ hsorted]
    exact hproj.symm

/-- Witness for C8 at a concrete three-segment chain (chat.user,
biz.decision with ACCEPT, capsule.mint): the rebuilt projections equal
the incrementally built ones. -/
theorem rebuild_matches_incremental_witness :
    rebuildProjections (commitChain (fun s => "H:" ++ s) sampleChain).1 =
      (commitChain (fun s => "H:" ++ s) sampleChain).2 :=
  rebuild_matches_incremental (fun s => "H:" ++ s) sampleChain
    (by decide) (by decide)

end POSnos
